import Mathlib

/-!
Verification development for the `sklearn_classifier_dask` training pipeline
(`src/sklearn_classifier_dask/sklearn_classifier_dask.py`, function `train_model`).

The pipeline is embedded shallowly:

* A distributed tabular frame (`dask.dataframe`) is a list of named, typed
  columns whose cells are numeric, string, or missing values; floating-point
  cell contents are represented by rationals.
* External collaborators are modelled at their interface boundary, exactly as
  the pipeline observes them: the dask client handle, the dynamic class lookup
  (`mlrun.utils.helpers.create_class`), the distributed `fit` call, and the
  yellowbrick report generators succeed or fail according to an explicit
  environment (`Env`); the unseeded row ordering drawn by `df.sample` is the
  environment's `samplePerm`; the seeded shuffle inside
  `dask_ml.model_selection.train_test_split` is a concrete deterministic
  permutation of the row indices (faithful in determinism, disjointness and
  partition sizes, which is all the pipeline depends on).
* `train_model` returns the ordered trace of observable events (reads, the
  backend fit call, report generation, surface clears, artifact writes)
  together with its outcome and the intermediate values each stage produced.
-/

/-- Column dtypes a pandas/dask frame can carry, as the `select_dtypes`
call at line 78 distinguishes them. -/
inductive Dtype
  | int8
  | int16
  | int32
  | int64
  | uint8
  | uint16
  | uint32
  | uint64
  | float16
  | float32
  | float64
  | string
  | boolean
  | object
deriving DecidableEq

/-- One cell of a frame: a numeric value, a string value, or a missing value
(NaN / None, what `isna` detects). -/
inductive Value
  | num (q : Rat)
  | str (s : String)
  | missing
deriving DecidableEq

/-- Whether a cell is missing (pandas `isna`). -/
def Value.isMissing : Value → Bool
  | .missing => true
  | _ => false

/-- Numeric content of a cell; non-numeric cells never reach the numeric
stages because `select_dtypes` drops their columns first. -/
def Value.toRat : Value → Rat
  | .num q => q
  | _ => 0

/-- Python `str(...)` as the pipeline applies it to label values at line 95
(only the elementwise rendering matters to the model). -/
def pyStr : Value → String
  | .num q => toString q
  | .str s => s
  | .missing => "nan"

/-!
Rational arithmetic helpers. These are the standard operations on ℚ, written
out on numerator/denominator form (`Rat.divInt` normalizes), so that every
stage of the model stays evaluable by the kernel on concrete inputs.
-/

/-- Product of two rationals. -/
def ratMul (a b : Rat) : Rat :=
  Rat.divInt (a.num * b.num) ((a.den : Int) * (b.den : Int))

/-- Sum of two rationals. -/
def ratAdd (a b : Rat) : Rat :=
  Rat.divInt (a.num * (b.den : Int) + b.num * (a.den : Int)) ((a.den : Int) * (b.den : Int))

/-- Difference of two rationals. -/
def ratSub (a b : Rat) : Rat :=
  Rat.divInt (a.num * (b.den : Int) - b.num * (a.den : Int)) ((a.den : Int) * (b.den : Int))

/-- Quotient of two rationals (0 when the divisor is 0, as for `Rat.div`). -/
def ratDiv (a b : Rat) : Rat :=
  Rat.divInt (a.num * (b.den : Int)) ((a.den : Int) * b.num)

/-- Sum of a list of rationals. -/
def ratSum (l : List Rat) : Rat :=
  l.foldr ratAdd 0

/-- Floor of a rational (the denominator is positive, so floored integer
division of the numerator by the denominator). -/
def ratFloor (q : Rat) : Int :=
  q.num.fdiv (q.den : Int)

/-- Strict order on rationals by cross multiplication (denominators are
positive). -/
def ratLtB (a b : Rat) : Bool :=
  a.num * (b.den : Int) < b.num * (a.den : Int)

/-- Non-strict order on rationals. -/
def ratLeB (a b : Rat) : Bool :=
  !(ratLtB b a)

/-- Lexicographic order on char lists by code point, modelling Python string
comparison. -/
def charListLe : List Char → List Char → Bool
  | [], _ => true
  | _ :: _, [] => false
  | a :: as, b :: bs =>
    if a.toNat < b.toNat then true
    else if b.toNat < a.toNat then false
    else charListLe as bs

/-- String order by code points. -/
def strLeB (a b : String) : Bool :=
  charListLe a.data b.data

/-- A named, typed column of a distributed tabular frame. -/
structure Column where
  name : String
  dtype : Dtype
  values : List Value
deriving DecidableEq

/-- A distributed tabular frame: a list of aligned columns. -/
structure DataFrame where
  cols : List Column
deriving DecidableEq

/-- Number of rows (length of the first column; all columns are aligned in a
well-formed frame). -/
def DataFrame.nrows (df : DataFrame) : Nat :=
  match df.cols with
  | [] => 0
  | c :: _ => c.values.length

/-- Column names in order (`df.columns`, line 86). -/
def DataFrame.colNames (df : DataFrame) : List String :=
  df.cols.map Column.name

/-- The dtype whitelist of line 78:
`numerics = ["int16", "int32", "int64", "float16", "float32", "float64"]`. -/
def numerics : List Dtype :=
  [Dtype.int16, Dtype.int32, Dtype.int64, Dtype.float16, Dtype.float32, Dtype.float64]

/-- `df.select_dtypes(include=...)` (line 79): keep exactly the columns whose
dtype is in the include list, in order. -/
def DataFrame.select_dtypes (df : DataFrame) (include_ : List Dtype) : DataFrame :=
  { cols := df.cols.filter (fun c => include_.contains c.dtype) }

/-- `df.isna().any().any()` (line 82): does any cell of any column hold a
missing value. -/
def DataFrame.isnaAny (df : DataFrame) : Bool :=
  df.cols.any (fun c => c.values.any Value.isMissing)

/-- Python `round` (round half to even), which pandas uses to turn
`frac * len(df)` into a row count inside `sample`. -/
def pyRound (q : Rat) : Int :=
  let f : Int := ratFloor q
  let r : Rat := Rat.divInt (q.num - f * (q.den : Int)) (q.den : Int)
  if ratLtB r (mkRat 1 2) then f
  else if ratLtB (mkRat 1 2) r then f + 1
  else if f % 2 = 0 then f else f + 1

/-- `df.sample(frac=...).reset_index(drop=True)` (line 88). The unseeded
random draw is made explicit: `perm` is the randomly ordered list of row
indices the sampler produces (a permutation of the row indices), and the
sampled frame keeps the first `round(frac * nrows)` of them, in that order.
The dropped index is not part of the frame model. -/
def DataFrame.sample (df : DataFrame) (perm : List Nat) (frac : Rat) : DataFrame :=
  let k : Nat := (pyRound (ratMul frac (df.nrows : Rat))).toNat
  let sel := perm.take k
  { cols := df.cols.map (fun c =>
      { c with values := sel.map (fun i => c.values.getD i Value.missing) }) }

/-- `df[name]` column lookup: the first column with the given name, if any
(`KeyError` otherwise, which the caller models). -/
def DataFrame.getCol (df : DataFrame) (name : String) : Option Column :=
  df.cols.find? (fun c => c.name == name)

/-- `df.drop(name, axis=1)` (line 91). -/
def DataFrame.dropCol (df : DataFrame) (name : String) : DataFrame :=
  { cols := df.cols.filter (fun c => c.name != name) }

/-- `df.to_dask_array(lengths=True)` materialized row-major (line 91): row i
is the list of the columns' i-th numeric cells. -/
def DataFrame.toMatrix (df : DataFrame) : List (List Rat) :=
  (List.range df.nrows).map (fun i =>
    df.cols.map (fun c => (c.values.getD i Value.missing).toRat))

/-- Ordering used to model `np.unique` sorting inside the label encoder fit:
numeric values by numeric order, strings lexicographically, numbers before
strings, missing first. -/
def valLe : Value → Value → Bool
  | .missing, _ => true
  | _, .missing => false
  | .num a, .num b => ratLeB a b
  | .num _, .str _ => true
  | .str _, .num _ => false
  | .str a, .str b => strLeB a b

/-- Insertion into a `valLe`-sorted list. -/
def insertVal (v : Value) : List Value → List Value
  | [] => [v]
  | w :: ws => if valLe v w then v :: w :: ws else w :: insertVal v ws

/-- Insertion sort by `valLe`. -/
def sortVals : List Value → List Value
  | [] => []
  | v :: vs => insertVal v (sortVals vs)

/-- First-occurrence deduplication (pandas `drop_duplicates`, line 94),
with an accumulator of already seen values. -/
def dedupFirstAux (seen : List Value) : List Value → List Value
  | [] => []
  | v :: vs =>
    if v ∈ seen then dedupFirstAux seen vs
    else v :: dedupFirstAux (v :: seen) vs

/-- First-occurrence deduplication of a list of values. -/
def dedupFirst (l : List Value) : List Value :=
  dedupFirstAux [] l

/-- Fitted `dask_ml.preprocessing.LabelEncoder`: owns the sorted list of
distinct observed label values. -/
structure LabelEncoder where
  classes : List Value
deriving DecidableEq

/-- `LabelEncoder().fit(column)` (lines 89–90): the classes are the sorted
distinct values of the column. -/
def LabelEncoder.fit (vals : List Value) : LabelEncoder :=
  { classes := (sortVals vals).dedup }

/-- `encoder.transform(column)` (line 92): each value becomes the zero-based
index of its class. -/
def LabelEncoder.transform (e : LabelEncoder) (vals : List Value) : List Nat :=
  vals.map (fun v => e.classes.indexOf v)

/-- Fitted `dask_ml.preprocessing.StandardScaler`: per-column mean and
variance (the fitted parameters; the scale is the square root of the
variance and is determined by it). -/
structure StandardScaler where
  mean : List Rat
  var : List Rat
deriving DecidableEq

/-- Mean of a list of rationals (0 for an empty list). -/
def colMean (xs : List Rat) : Rat :=
  ratDiv (ratSum xs) (xs.length : Rat)

/-- Population variance of a list of rationals (0 for an empty list). -/
def colVar (xs : List Rat) : Rat :=
  ratDiv (ratSum (xs.map (fun x => ratMul (ratSub x (colMean xs)) (ratSub x (colMean xs)))))
    (xs.length : Rat)

/-- `StandardScaler().fit(X_train)` (lines 102–103): per-column mean and
variance of the matrix it is fitted on. -/
def StandardScaler.fit (m : List (List Rat)) : StandardScaler :=
  let ncols := (m.headD []).length
  let col := fun j => m.map (fun r => r.getD j 0)
  { mean := (List.range ncols).map (fun j => colMean (col j)),
    var := (List.range ncols).map (fun j => colVar (col j)) }

/-- A distributed array as the fit/score stages consume it: either a raw
feature matrix or the image of a matrix under a fitted scaler. The
standardization arithmetic itself is performed by the external dask_ml
library (and involves a square root, outside ℚ); the model records which
scaler was applied to which matrix, which is what the pipeline's data flow
depends on. -/
inductive DaskArray
  | raw (m : List (List Rat))
  | scaled (s : StandardScaler) (m : List (List Rat))
deriving DecidableEq

/-- `scaler.transform(X)` (lines 104–105): the external transform applied to
a matrix, recorded symbolically. -/
def StandardScaler.transform (s : StandardScaler) (m : List (List Rat)) : DaskArray :=
  DaskArray.scaled s m

/-- One step of the linear congruential generator driving the model of the
seeded shuffle. -/
def lcgNext (s : Nat) : Nat :=
  (1103515245 * s + 12345) % 2147483648

/-- Remove and return the i-th element of a list. -/
def pickRemove (l : List Nat) (i : Nat) : Nat × List Nat :=
  (l.getD i 0, l.take i ++ l.drop (i + 1))

/-- Fuelled Fisher–Yates draw driven by `lcgNext`. -/
def shuffleGo : Nat → Nat → List Nat → List Nat → List Nat
  | 0, _, pool, acc => acc.reverse ++ pool
  | _ + 1, _, [], acc => acc.reverse
  | fuel + 1, seed, p :: ps, acc =>
    let s := lcgNext seed
    let pr := pickRemove (p :: ps) (s % (p :: ps).length)
    shuffleGo fuel s pr.2 (pr.1 :: acc)

/-- The seeded shuffle of the row indices `0, …, n-1`. This stands for the
numpy permutation inside `dask_ml.model_selection.train_test_split` with
`random_state=seed`: a deterministic function of the seed and the input
size, which is the only property of it the pipeline relies on. -/
def shuffleList (seed n : Nat) : List Nat :=
  shuffleGo n seed (List.range n) []

/-- The four fixed report kinds of the Evaluator (lines 124 and 166). -/
inductive ReportKind
  | rocauc
  | classificationReport
  | confusionMatrix
  | featureImportances
deriving DecidableEq

/-- Error kinds the pipeline can surface (the spec's abstract names for the
exceptions the code and its collaborators raise). -/
inductive Err
  | valueError
  | invalidDataset
  | keyError (col : String)
  | invalidConfiguration
  | unresolvableClass (name : String)
  | trainingFailed
  | evaluationFailed (k : ReportKind)
deriving DecidableEq

/-- Position of a report kind in the fixed generation order. -/
def ReportKind.idx : ReportKind → Nat
  | .rocauc => 0
  | .classificationReport => 1
  | .confusionMatrix => 2
  | .featureImportances => 3

/-- `dask_ml.model_selection.train_test_split(X, y, train_size, random_state)`
(lines 98–100): validates the train fraction, then splits rows by the seeded
shuffle, the first `⌊train_size * n⌋` shuffled indices to the train
partition and the rest to the test partition, consistently for `X` and `y`. -/
def train_test_split (X : List (List Rat)) (y : List Nat) (train_size : Rat)
    (random_state : Nat) :
    Except Err (List (List Rat) × List (List Rat) × List Nat × List Nat) :=
  if 0 < train_size ∧ train_size < 1 then
    let n := X.length
    let p := shuffleList random_state n
    let k := (ratFloor (ratMul train_size (n : Rat))).toNat
    let trIdx := p.take k
    let teIdx := p.drop k
    Except.ok
      (trIdx.map (fun i => X.getD i []),
       teIdx.map (fun i => X.getD i []),
       trIdx.map (fun i => y.getD i 0),
       teIdx.map (fun i => y.getD i 0))
  else
    Except.error Err.invalidConfiguration

/-- How the dask client was obtained (lines 64–70): from an imported dask
function reference, or from a caller-supplied client object. -/
inductive ClientSrc
  | fromFunction (url : String)
  | fromObject
deriving DecidableEq

/-- Python truthiness of an optional string argument (`if dask_function:`,
line 65): absent and empty strings are falsy. -/
def truthyStr : Option String → Bool
  | none => false
  | some s => !s.isEmpty

/-- The arguments of `train_model` (lines 29–43), with the signature's
defaults. The dataset reference is resolved to its frame (`dataset.as_df`,
line 74, is the identity of this model); the dask client object is opaque. -/
structure Args where
  dataset : DataFrame
  model_pkg_class : String
  label_column : String := "label"
  train_validation_size : Rat := mkRat 3 4
  sample : Rat := 1
  models_dest : String := "models"
  test_set_key : String := "test_set"
  plots_dest : String := "plots"
  dask_function : Option String := none
  dask_client : Option Unit := none
  file_ext : String := "parquet"
  random_state : Nat := 42

/-- Behaviour of the external collaborators during one invocation:
the row order drawn by the unseeded `df.sample`, whether
`create_class` can import a given qualified name, whether the distributed
`fit` call succeeds, and whether each report generator succeeds. -/
structure Env where
  samplePerm : List Nat
  resolveOk : String → Bool
  fitOk : Bool
  reportOk : ReportKind → Bool

/-- Observable events of one pipeline invocation, in program order. -/
inductive Event
  | readData
  | clear
  | genReport (k : ReportKind)
  | logPlot (k : ReportKind)
  | logResults (k : ReportKind)
  | resolveClass (name : String)
  | fitAttempt
  | logModel
  | logScaler
  | logEncoder
  | logDataset (rows : Nat) (header : List String)
deriving DecidableEq

/-- Whether an event writes an artifact to the store. -/
def Event.isArtifactWrite : Event → Bool
  | .logPlot _ => true
  | .logModel => true
  | .logScaler => true
  | .logEncoder => true
  | .logDataset _ _ => true
  | _ => false

/-- Outcome of one invocation. -/
inductive Outcome
  | ok
  | err (e : Err)
deriving DecidableEq

/-- Model configuration produced by `mlrun.mlutils.models.gen_sklearn_model`
(line 107), modelled at the interface for the bare qualified-name descriptor
form the claims exercise: the `META` group carries the class name to
resolve (constructor and fit keyword groups are opaque to the claims). -/
structure ModelConfig where
  metaClass : String
deriving DecidableEq

/-- `gen_sklearn_model(model_pkg_class, ...)` for a bare qualified name. -/
def gen_sklearn_model (model_pkg_class : String) : ModelConfig :=
  { metaClass := model_pkg_class }

/-- `mlrun.import_function(url).client` / the `dask_client` argument /
`ValueError` (lines 64–70): the selected client source, if any. -/
def clientOf (a : Args) : Option ClientSrc :=
  if truthyStr a.dask_function then
    some (ClientSrc.fromFunction (a.dask_function.getD ""))
  else if a.dask_client.isSome then
    some ClientSrc.fromObject
  else
    none

/-- `np.column_stack((X_test, y_test))` (line 225): append the label codes
as a final column to the feature rows. -/
def columnStack (X : List (List Rat)) (y : List Nat) : List (List Rat) :=
  List.zipWith (fun r v => r ++ [(v : Rat)]) X y

/-- Everything the preparation/partition stages produce (lines 78–105):
the retained header, the sampled frame, the fitted encoder, the class label
strings, the raw train/test partitions of features and encoded labels, and
the fitted scaler. -/
structure PrepOut where
  df_header : List String
  dfSampled : DataFrame
  encoder : LabelEncoder
  classes : List String
  X_train : List (List Rat)
  X_test : List (List Rat)
  y_train : List Nat
  y_test : List Nat
  scaler : StandardScaler
deriving DecidableEq

/-- Lines 78–103 of `train_model`: numeric restriction, NA validation,
sampling, label encoding, feature extraction, train/test split and scaler
fit. Fails exactly where the code raises: residual missing values
(`Exception("NAs valus found")`, modelled as `invalidDataset`), a label
column absent from the numeric frame (`KeyError`), or a train fraction the
split rejects (`invalidConfiguration`). -/
def prepSplit (a : Args) (perm : List Nat) : Except Err PrepOut :=
  let dfN := a.dataset.select_dtypes numerics
  if dfN.isnaAny then Except.error Err.invalidDataset
  else
    let df_header := dfN.colNames
    let dfS := dfN.sample perm a.sample
    match dfS.getCol a.label_column with
    | none => Except.error (Err.keyError a.label_column)
    | some lc =>
      let encoder := LabelEncoder.fit lc.values
      let X := (dfS.dropCol a.label_column).toMatrix
      let y := encoder.transform lc.values
      let classes := (dedupFirst lc.values).map pyStr
      match train_test_split X y a.train_validation_size a.random_state with
      | Except.error e => Except.error e
      | Except.ok (X_train, X_test, y_train, y_test) =>
        Except.ok
          { df_header := df_header
            dfSampled := dfS
            encoder := encoder
            classes := classes
            X_train := X_train
            X_test := X_test
            y_train := y_train
            y_test := y_test
            scaler := StandardScaler.fit X_train }

/-- Events of one iteration of the report loop (lines 124–161): the surface
reset (`plt.cla(); plt.clf(); plt.close()`), the report generation
(construct, fit, score), the plot artifact write, and — for the ROCAUC and
classification reports — the scalar results write. -/
def reportEvents (k : ReportKind) : List Event :=
  [Event.clear, Event.genReport k, Event.logPlot k] ++
    (if k = ReportKind.rocauc ∨ k = ReportKind.classificationReport then
      [Event.logResults k]
    else [])

/-- The report loop of lines 124–163, over the listed report kinds in order.
Each iteration first clears the drawing surface; if the generator for that
kind fails (there is no exception handling in the loop), the exception
aborts the loop and the events so far — including the iteration's leading
clear — are what happened. -/
def evalReports (env : Env) : List ReportKind → Except (ReportKind × List Event) (List Event)
  | [] => Except.ok []
  | k :: ks =>
    if env.reportOk k then
      match evalReports env ks with
      | Except.ok tr => Except.ok (reportEvents k ++ tr)
      | Except.error (kf, tr) => Except.error (kf, reportEvents k ++ tr)
    else
      Except.error (k, [Event.clear])

/-- The whole Evaluator (lines 124–186): the three-kind loop, then the
FeatureImportances block (lines 166–181), which is *not* preceded by a
surface reset, and the final reset of lines 184–186. -/
def evalPhase (env : Env) : Except (ReportKind × List Event) (List Event) :=
  match evalReports env
      [ReportKind.rocauc, ReportKind.classificationReport, ReportKind.confusionMatrix] with
  | Except.error p => Except.error p
  | Except.ok tr =>
    if env.reportOk ReportKind.featureImportances then
      Except.ok (tr ++
        [Event.genReport ReportKind.featureImportances,
         Event.logPlot ReportKind.featureImportances,
         Event.clear])
    else
      Except.error (ReportKind.featureImportances, tr)

/-- The events the Evaluator emitted, whether or not it completed. -/
def evalTrace : Except (ReportKind × List Event) (List Event) → List Event
  | Except.ok tr => tr
  | Except.error (_, tr) => tr

/-- Result of one `train_model` invocation: the event trace, the outcome,
and the values the stages produced (each `none` until its stage runs). -/
structure RunOut where
  trace : List Event
  result : Outcome
  clientUsed : Option ClientSrc := none
  dfSampled : Option DataFrame := none
  header : Option (List String) := none
  classes : Option (List String) := none
  xTrain : Option (List (List Rat)) := none
  xTest : Option (List (List Rat)) := none
  yTrain : Option (List Nat) := none
  yTest : Option (List Nat) := none
  scaler : Option StandardScaler := none
  fitX : Option DaskArray := none
  scoreX : Option DaskArray := none
  heldOut : Option (List String × List (List Rat)) := none

/-- Shallow embedding of `train_model`
(`src/sklearn_classifier_dask/sklearn_classifier_dask.py`, lines 29–235):
client selection (64–70), dataset read (74), preparation and partitioning
(78–105, `prepSplit`), descriptor resolution (107–113), the distributed fit
under the dask joblib backend (116–119), the Evaluator (124–186,
`evalPhase`), and the artifact writes (190–233): the model, the scaler, the
encoder, and the held-out test set rebuilt from the *raw* test features and
the encoded test labels under the retained header. -/
def train_model (a : Args) (env : Env) : RunOut :=
  match clientOf a with
  | none => { trace := [], result := Outcome.err Err.valueError }
  | some cs =>
    let tr0 := [Event.readData]
    match prepSplit a env.samplePerm with
    | Except.error e =>
      { trace := tr0, result := Outcome.err e, clientUsed := some cs }
    | Except.ok p =>
      let X_train_transformed := p.scaler.transform p.X_train
      let X_test_transformed := p.scaler.transform p.X_test
      let cfg := gen_sklearn_model a.model_pkg_class
      if env.resolveOk cfg.metaClass then
        let tr1 := tr0 ++ [Event.resolveClass cfg.metaClass, Event.fitAttempt]
        if env.fitOk then
          match evalPhase env with
          | Except.error (k, evtr) =>
            { trace := tr1 ++ evtr
              result := Outcome.err (Err.evaluationFailed k)
              clientUsed := some cs
              dfSampled := some p.dfSampled
              header := some p.df_header
              classes := some p.classes
              xTrain := some p.X_train
              xTest := some p.X_test
              yTrain := some p.y_train
              yTest := some p.y_test
              scaler := some p.scaler
              fitX := some X_train_transformed
              scoreX := some X_test_transformed }
          | Except.ok evtr =>
            let held := columnStack p.X_test p.y_test
            { trace := tr1 ++ evtr ++
                [Event.logModel, Event.logScaler, Event.logEncoder,
                 Event.logDataset held.length p.df_header]
              result := Outcome.ok
              clientUsed := some cs
              dfSampled := some p.dfSampled
              header := some p.df_header
              classes := some p.classes
              xTrain := some p.X_train
              xTest := some p.X_test
              yTrain := some p.y_train
              yTest := some p.y_test
              scaler := some p.scaler
              fitX := some X_train_transformed
              scoreX := some X_test_transformed
              heldOut := some (p.df_header, held) }
        else
          { trace := tr1
            result := Outcome.err Err.trainingFailed
            clientUsed := some cs
            dfSampled := some p.dfSampled
            header := some p.df_header
            classes := some p.classes
            xTrain := some p.X_train
            xTest := some p.X_test
            yTrain := some p.y_train
            yTest := some p.y_test
            scaler := some p.scaler
            fitX := some X_train_transformed
            scoreX := some X_test_transformed }
      else
        { trace := tr0
          result := Outcome.err (Err.unresolvableClass cfg.metaClass)
          clientUsed := some cs
          dfSampled := some p.dfSampled
          header := some p.df_header
          classes := some p.classes
          xTrain := some p.X_train
          xTest := some p.X_test
          yTrain := some p.y_train
          yTest := some p.y_test
          scaler := some p.scaler
          fitX := some X_train_transformed
          scoreX := some X_test_transformed }

/-- Whether the Evaluator completed. -/
def exceptIsOk : Except (ReportKind × List Event) (List Event) → Bool
  | Except.ok _ => true
  | Except.error _ => false

/-- State of the shared drawing surface at the moment a given report kind is
generated, scanned along an event trace: `clear` resets the surface,
generating a report draws on it; the result is the surface state right
before the first generation of the given kind (`none` if that kind is never
generated). -/
def dirtyAtGen : List Event → Bool → ReportKind → Option Bool
  | [], _, _ => none
  | Event.clear :: tr, _, k => dirtyAtGen tr false k
  | Event.genReport k2 :: tr, d, k =>
    if k2 = k then some d else dirtyAtGen tr true k
  | _ :: tr, d, k => dirtyAtGen tr d k

/-- The prepared/partitioned values a run of `train_model` is built on:
`none` when the client is missing or a preparation stage fails, otherwise
the `prepSplit` output for the run's sample draw. -/
def splitView (a : Args) (perm : List Nat) : Option PrepOut :=
  match clientOf a with
  | none => none
  | some _ => (prepSplit a perm).toOption

/-- Environment in which every external collaborator cooperates and the
unseeded sampler draws the identity order on 100 rows. -/
def scnEnv : Env :=
  { samplePerm := List.range 100
    resolveOk := fun _ => true
    fitOk := true
    reportOk := fun _ => true }

/-- End-to-end scenario A dataset: columns `f1 : float, f2 : float,
label : string`, 100 rows. -/
def scnAFrame : DataFrame :=
  { cols :=
      [ { name := "f1", dtype := Dtype.float64,
          values := (List.range 100).map (fun i => Value.num i) },
        { name := "f2", dtype := Dtype.float64,
          values := (List.range 100).map (fun i => Value.num (2 * i)) },
        { name := "label", dtype := Dtype.string,
          values := (List.range 100).map (fun i =>
            Value.str (if i % 2 = 0 then "a" else "b")) } ] }

/-- Scenario A invocation: defaults (`label`, `train_validation_size = 3/4`,
`sample = 1`, `random_state = 42`), a binary-classifier qualified name, a
caller-supplied dask client. -/
def scnAArgs : Args :=
  { dataset := scnAFrame
    model_pkg_class := "sklearn.linear_model.LogisticRegression"
    dask_client := some () }

/-- Scenario A with a numeric (int64) label column, which survives the
numeric dtype restriction: the labels are the classes 0 and 1. -/
def scnBFrame : DataFrame :=
  { cols :=
      [ { name := "f1", dtype := Dtype.float64,
          values := (List.range 100).map (fun i => Value.num i) },
        { name := "f2", dtype := Dtype.float64,
          values := (List.range 100).map (fun i => Value.num (2 * i)) },
        { name := "label", dtype := Dtype.int64,
          values := (List.range 100).map (fun i => Value.num (i % 2)) } ] }

/-- Scenario A invocation on the numeric-label dataset. -/
def scnBArgs : Args :=
  { dataset := scnBFrame
    model_pkg_class := "sklearn.linear_model.LogisticRegression"
    dask_client := some () }

/-- Two-row dataset with distinguishable feature values, for split/sampling
observations. -/
def twoRowFrame : DataFrame :=
  { cols :=
      [ { name := "f1", dtype := Dtype.float64,
          values := [Value.num 10, Value.num 20] },
        { name := "label", dtype := Dtype.int64,
          values := [Value.num 0, Value.num 1] } ] }

/-- Invocation on the two-row dataset, sampling fraction 1, train fraction
one half, fixed seed. -/
def twoRowArgs : Args :=
  { dataset := twoRowFrame
    model_pkg_class := "sklearn.linear_model.LogisticRegression"
    train_validation_size := mkRat 1 2
    dask_client := some () }

/-- Cooperative environment whose unseeded sampler draws the identity order
on the two rows. -/
def twoRowEnvId : Env :=
  { samplePerm := [0, 1]
    resolveOk := fun _ => true
    fitOk := true
    reportOk := fun _ => true }

/-- Cooperative environment whose unseeded sampler draws the two rows in
swapped order. -/
def twoRowEnvSwap : Env :=
  { samplePerm := [1, 0]
    resolveOk := fun _ => true
    fitOk := true
    reportOk := fun _ => true }

/-- Cooperative environment with the identity sample draw on two rows whose
distributed fit call fails. -/
def twoRowEnvIdNoFit : Env :=
  { samplePerm := [0, 1]
    resolveOk := fun _ => true
    fitOk := false
    reportOk := fun _ => true }

/-- Dataset with a missing value in a retained numeric column. -/
def naFrame : DataFrame :=
  { cols :=
      [ { name := "f1", dtype := Dtype.float64,
          values := [Value.num 1, Value.missing] },
        { name := "label", dtype := Dtype.int64,
          values := [Value.num 0, Value.num 1] } ] }

/-- Invocation on the dataset with a missing value. -/
def naArgs : Args :=
  { dataset := naFrame
    model_pkg_class := "sklearn.linear_model.LogisticRegression"
    dask_client := some () }

/-- Environment in which the dynamic class lookup fails for every name. -/
def noResolveEnv : Env :=
  { samplePerm := List.range 100
    resolveOk := fun _ => false
    fitOk := true
    reportOk := fun _ => true }

/-- Environment in which generating the ROCAUC report fails and everything
else cooperates. -/
def rocFailEnv : Env :=
  { samplePerm := List.range 100
    resolveOk := fun _ => true
    fitOk := true
    reportOk := fun k =>
      match k with
      | ReportKind.rocauc => false
      | _ => true }

/-- Invocation with neither a dask function reference nor a dask client. -/
def noClientArgs : Args :=
  { dataset := twoRowFrame
    model_pkg_class := "sklearn.linear_model.LogisticRegression" }

/-- Invocation with both a dask function reference and a dask client. -/
def bothClientArgs : Args :=
  { dataset := twoRowFrame
    model_pkg_class := "sklearn.linear_model.LogisticRegression"
    dask_function := some "db://dask-cluster"
    dask_client := some () }

/-! ### Characterization lemmas about `train_model` -/

/-- The recorded client source is exactly what lines 64–70 select. -/
theorem train_model_clientUsed (a : Args) (env : Env) :
    (train_model a env).clientUsed = clientOf a := by
  unfold train_model
  rcases h : clientOf a with _ | cs
  · rfl
  · rcases hp : prepSplit a env.samplePerm with e | p
    · rfl
    · by_cases hr : env.resolveOk (gen_sklearn_model a.model_pkg_class).metaClass
      · simp only [hr, if_true]
        by_cases hf : env.fitOk
        · simp only [hf, if_true]
          rcases he : evalPhase env with ⟨k, tr⟩ | tr <;> rfl
        · simp only [hf]
          rfl
      · simp only [hr]
        rfl

/-- The split partitions and the fitted scaler a run records depend only on
the arguments and the sampler's draw (they are produced by lines 78–103,
before every collaborator-dependent stage). -/
theorem train_model_split_char (a : Args) (env : Env) :
    (train_model a env).xTrain = (splitView a env.samplePerm).map PrepOut.X_train ∧
    (train_model a env).xTest = (splitView a env.samplePerm).map PrepOut.X_test ∧
    (train_model a env).yTrain = (splitView a env.samplePerm).map PrepOut.y_train ∧
    (train_model a env).yTest = (splitView a env.samplePerm).map PrepOut.y_test ∧
    (train_model a env).scaler = (splitView a env.samplePerm).map PrepOut.scaler := by
  unfold train_model splitView
  rcases h : clientOf a with _ | cs
  · exact ⟨rfl, rfl, rfl, rfl, rfl⟩
  · rcases hp : prepSplit a env.samplePerm with e | p
    · exact ⟨rfl, rfl, rfl, rfl, rfl⟩
    · by_cases hr : env.resolveOk (gen_sklearn_model a.model_pkg_class).metaClass
      · simp only [hr, if_true]
        by_cases hf : env.fitOk
        · simp only [hf, if_true]
          rcases he : evalPhase env with ⟨k, tr⟩ | tr <;>
            exact ⟨rfl, rfl, rfl, rfl, rfl⟩
        · simp only [hf]
          exact ⟨rfl, rfl, rfl, rfl, rfl⟩
      · simp only [hr]
        exact ⟨rfl, rfl, rfl, rfl, rfl⟩

/-- Mapping positional lookup over the full index range recovers the list. -/
theorem getD_range_map {α : Type} (l : List α) (d : α) :
    (List.range l.length).map (fun i => l.getD i d) = l := by
  induction l with
  | nil => rfl
  | cons a t ih =>
    rw [List.length_cons, List.range_succ_eq_map, List.map_cons, List.map_map]
    have h2 : ((fun i => (a :: t).getD i d) ∘ Nat.succ) = fun i => t.getD i d := by
      funext i
      rfl
    rw [h2, ih]
    rfl

/-- Floored integer division by one. -/
theorem int_fdiv_one (x : Int) : Int.fdiv x 1 = x := by
  cases x with
  | ofNat m => cases m <;> simp [Int.fdiv, Nat.div_one]
  | negSucc m => simp [Int.fdiv, Nat.div_one]

/-- Python rounding of a natural number is that number. -/
theorem pyRound_natCast (n : Nat) : pyRound ((n : Nat) : Rat) = (n : Int) := by
  unfold pyRound ratFloor
  have hnum : ((n : Nat) : Rat).num = (n : Int) := Rat.num_natCast n
  have hden : ((n : Nat) : Rat).den = 1 := Rat.den_natCast n
  rw [hnum, hden]
  simp only [Nat.cast_one, int_fdiv_one, mul_one, sub_self, Rat.zero_divInt]
  have hlt : ratLtB 0 (mkRat 1 2) = true := by decide
  rw [hlt]
  simp

/-- Multiplying a rational by one on the left is the identity. -/
theorem ratMul_one_left (q : Rat) : ratMul 1 q = q := by
  unfold ratMul
  have h1 : (1 : Rat).num = 1 := rfl
  have h2 : (1 : Rat).den = 1 := rfl
  rw [h1, h2]
  simp only [one_mul, Nat.cast_one]
  exact Rat.num_divInt_den q

/-- Sampling does not change which column names resolve: the sampled frame
has a column of a given name exactly when the original does. -/
theorem sample_getCol_isSome (df : DataFrame) (perm : List Nat) (frac : Rat) (n : String) :
    ((df.sample perm frac).getCol n).isSome = (df.getCol n).isSome := by
  unfold DataFrame.sample DataFrame.getCol
  rw [List.find?_map]
  have h : ((fun c : Column => c.name == n) ∘ fun c =>
      { c with
        values := ((perm.take (pyRound (ratMul frac (df.nrows : Rat))).toNat)).map
            (fun i => c.values.getD i Value.missing) }) = fun c : Column => c.name == n := by
    funext c
    rfl
  rw [h]
  simp

/-- A column lookup succeeds exactly when the name occurs among the column
names. -/
theorem getCol_isSome_iff (df : DataFrame) (n : String) :
    (df.getCol n).isSome = true ↔ n ∈ df.colNames := by
  unfold DataFrame.getCol DataFrame.colNames
  rw [List.find?_isSome]
  constructor
  · intro h
    rcases h with ⟨c, hc, he⟩
    have : c.name = n := by simpa using he
    exact this ▸ List.mem_map_of_mem Column.name hc
  · intro h
    rcases List.mem_map.mp h with ⟨c, hc, he⟩
    exact ⟨c, hc, by simp [he]⟩

/-- With fraction one, sampling reindexes every column by the full drawn
order. -/
theorem sample_one (df : DataFrame) (perm : List Nat) :
    df.sample perm 1 =
      { cols := df.cols.map (fun c =>
          { c with
            values := (perm.take df.nrows).map
                (fun i => c.values.getD i Value.missing) }) } := by
  unfold DataFrame.sample
  rw [ratMul_one_left, pyRound_natCast, Int.toNat_natCast]

/-- Membership in the numeric dtype whitelist, spelled out. -/
theorem mem_numerics_iff (d : Dtype) :
    numerics.contains d = true ↔
      (d = Dtype.int16 ∨ d = Dtype.int32 ∨ d = Dtype.int64 ∨
       d = Dtype.float16 ∨ d = Dtype.float32 ∨ d = Dtype.float64) := by
  cases d <;> decide

/-- C10: the numeric-column restriction (lines 78–79) retains exactly the
columns whose dtype is one of int16, int32, int64, float16, float32,
float64; every column of any other dtype — int8, the unsigned integer
dtypes, strings, booleans, objects — is dropped from the feature set. -/
theorem c10_numeric_dtypes (df : DataFrame) (c : Column) :
    c ∈ (df.select_dtypes numerics).cols ↔
      (c ∈ df.cols ∧
        (c.dtype = Dtype.int16 ∨ c.dtype = Dtype.int32 ∨ c.dtype = Dtype.int64 ∨
         c.dtype = Dtype.float16 ∨ c.dtype = Dtype.float32 ∨ c.dtype = Dtype.float64)) := by
  unfold DataFrame.select_dtypes
  rw [List.mem_filter]
  exact and_congr_right (fun _ => mem_numerics_iff c.dtype)

/-- C8: if neither a dask function reference nor a dask client object is
supplied (lines 64–70), `train_model` raises `ValueError` with an empty
event trace — before the dataset is read or any other stage runs; and when
a (truthy) dask function reference is supplied, it is the selected client
source no matter what `dask_client` holds. -/
theorem c8_client_selection (a : Args) (env : Env) :
    ((truthyStr a.dask_function = false ∧ a.dask_client = none) →
      (train_model a env).result = Outcome.err Err.valueError ∧
      (train_model a env).trace = []) ∧
    (truthyStr a.dask_function = true →
      (train_model a env).clientUsed =
        some (ClientSrc.fromFunction (a.dask_function.getD ""))) := by
  constructor
  · rintro ⟨h1, h2⟩
    have hc : clientOf a = none := by
      unfold clientOf
      rw [h1, h2]
      simp
    unfold train_model
    rw [hc]
    exact ⟨rfl, rfl⟩
  · intro h1
    have hc : clientOf a = some (ClientSrc.fromFunction (a.dask_function.getD "")) := by
      unfold clientOf
      rw [h1]
      simp
    rw [train_model_clientUsed, hc]

/-- Witness for C8 at concrete inputs: no client at all yields the
`ValueError` outcome, and with both a function reference and a client
object the function reference wins. -/
theorem c8_client_selection_witness :
    ((train_model noClientArgs twoRowEnvId).result = Outcome.err Err.valueError ∧
      (train_model noClientArgs twoRowEnvId).trace = []) ∧
    (train_model bothClientArgs twoRowEnvId).clientUsed =
      some (ClientSrc.fromFunction "db://dask-cluster") :=
  ⟨(c8_client_selection noClientArgs twoRowEnvId).1 ⟨by decide, by decide⟩,
   (c8_client_selection bothClientArgs twoRowEnvId).2 (by decide)⟩

/-- C2: for every input frame that, after restriction to the numeric
columns, contains at least one missing value, `train_model` fails with the
`InvalidDataset` error (the `"NAs valus found"` exception of lines 82–83)
before any fit and before any artifact write: the backend fit is never
entered and the count of artifact-writing events in the trace is zero. -/
theorem c2_na_aborts (a : Args) (env : Env) (hc : (clientOf a).isSome = true)
    (hna : (a.dataset.select_dtypes numerics).isnaAny = true) :
    (train_model a env).result = Outcome.err Err.invalidDataset ∧
    Event.fitAttempt ∉ (train_model a env).trace ∧
    (train_model a env).trace.countP Event.isArtifactWrite = 0 := by
  have hp : prepSplit a env.samplePerm = Except.error Err.invalidDataset := by
    unfold prepSplit
    simp [hna]
  rcases h : clientOf a with _ | cs
  · rw [h] at hc
    simp at hc
  · unfold train_model
    rw [h, hp]
    refine ⟨rfl, ?_, rfl⟩
    show Event.fitAttempt ∉ [Event.readData]
    decide

/-- Witness for C2: a concrete frame with a missing value in a retained
float column aborts with `InvalidDataset`. -/
theorem c2_na_aborts_witness :
    (train_model naArgs twoRowEnvId).result = Outcome.err Err.invalidDataset :=
  (c2_na_aborts naArgs twoRowEnvId (by decide) (by decide)).1

/-- C7: when the model descriptor names a class that the dynamic lookup of
line 111 cannot import, an otherwise valid run of `train_model` fails with
`UnresolvableClass` and the distributed fit stage — the joblib dask backend
context and the estimator fit call of lines 116–119 — is never reached. -/
theorem c7_unresolvable_before_fit (a : Args) (env : Env)
    (hres : env.resolveOk a.model_pkg_class = false)
    (hc : (clientOf a).isSome = true)
    (hna : (a.dataset.select_dtypes numerics).isnaAny = false)
    (hlab : a.label_column ∈ (a.dataset.select_dtypes numerics).colNames)
    (hts : 0 < a.train_validation_size ∧ a.train_validation_size < 1) :
    (train_model a env).result = Outcome.err (Err.unresolvableClass a.model_pkg_class) ∧
    Event.fitAttempt ∉ (train_model a env).trace := by
  have hget : (((a.dataset.select_dtypes numerics).sample env.samplePerm a.sample).getCol
      a.label_column).isSome = true := by
    rw [sample_getCol_isSome, getCol_isSome_iff]
    exact hlab
  rcases hoc : ((a.dataset.select_dtypes numerics).sample env.samplePerm a.sample).getCol
      a.label_column with _ | lc
  · rw [hoc] at hget
    simp at hget
  · have hprep : ∃ p, prepSplit a env.samplePerm = Except.ok p := by
      unfold prepSplit train_test_split
      simp only [hna, Bool.false_eq_true, if_false, hoc]
      rw [if_pos hts]
      exact ⟨_, rfl⟩
    rcases hprep with ⟨p, hp⟩
    rcases hcc : clientOf a with _ | cs
    · rw [hcc] at hc
      simp at hc
    · unfold train_model
      have hr : env.resolveOk (gen_sklearn_model a.model_pkg_class).metaClass = false := hres
      simp only [hcc, hp, hr, Bool.false_eq_true, if_false]
      refine ⟨rfl, ?_⟩
      show Event.fitAttempt ∉ [Event.readData]
      decide

/-- Witness for C7: a concrete valid dataset with an environment whose class
lookup fails yields `UnresolvableClass` and no fit attempt. -/
theorem c7_unresolvable_before_fit_witness :
    (train_model scnBArgs noResolveEnv).result =
      Outcome.err (Err.unresolvableClass "sklearn.linear_model.LogisticRegression") ∧
    Event.fitAttempt ∉ (train_model scnBArgs noResolveEnv).trace :=
  c7_unresolvable_before_fit scnBArgs noResolveEnv (by decide) (by decide) (by decide)
    (by decide) (by decide)

/-- C9: in every completing run, the held-out dataset artifact is assembled
by column-stacking the *raw* test feature partition with the encoded test
labels under the retained header (line 225), while the estimator was fitted
on the scaler-transformed train partition and scored on the
scaler-transformed test partition (lines 104–109, 134–136). -/
theorem c9_heldout_unscaled (a : Args) (env : Env)
    (hok : (train_model a env).result = Outcome.ok) :
    ∃ p : PrepOut, prepSplit a env.samplePerm = Except.ok p ∧
      (train_model a env).header = some p.df_header ∧
      (train_model a env).xTest = some p.X_test ∧
      (train_model a env).yTest = some p.y_test ∧
      (train_model a env).heldOut = some (p.df_header, columnStack p.X_test p.y_test) ∧
      (train_model a env).fitX = some (p.scaler.transform p.X_train) ∧
      (train_model a env).scoreX = some (p.scaler.transform p.X_test) := by
  unfold train_model at hok ⊢
  rcases h : clientOf a with _ | cs
  · rw [h] at hok
    exact Outcome.noConfusion hok
  · rcases hp : prepSplit a env.samplePerm with e | p
    · simp only [h, hp] at hok
      exact Outcome.noConfusion hok
    · by_cases hr : env.resolveOk (gen_sklearn_model a.model_pkg_class).metaClass = true
      · by_cases hf : env.fitOk = true
        · rcases he : evalPhase env with ⟨k, tr⟩ | tr
          · simp only [h, hp, hr, hf, he, if_true] at hok
            exact Outcome.noConfusion hok
          · simp only [h, hp, hr, hf, he, if_true]
            exact ⟨p, rfl, rfl, rfl, rfl, rfl, rfl, rfl⟩
        · rw [Bool.not_eq_true] at hf
          simp only [h, hp, hr, hf, Bool.false_eq_true, if_true, if_false] at hok
          exact Outcome.noConfusion hok
      · rw [Bool.not_eq_true] at hr
        simp only [h, hp, hr, Bool.false_eq_true, if_false] at hok
        exact Outcome.noConfusion hok

set_option maxRecDepth 8000 in
/-- Witness for C9: in the completing concrete scenario, the held-out
artifact is exactly the raw test features stacked with the encoded test
labels under the retained header. -/
theorem c9_heldout_unscaled_witness :
    (train_model scnBArgs scnEnv).heldOut =
      some (((train_model scnBArgs scnEnv).header).getD [],
        columnStack (((train_model scnBArgs scnEnv).xTest).getD [])
          (((train_model scnBArgs scnEnv).yTest).getD [])) := by
  obtain ⟨p, _, hh, hx, hy, hheld, _, _⟩ := c9_heldout_unscaled scnBArgs scnEnv (by decide)
  rw [hheld, hh, hx, hy]
  simp

/-- C3 is false as stated: two runs of `train_model` with identical
arguments — the same dataset, descriptor, random seed, and a sample
fraction of 1.0 (which lies in (0,1]) — can produce different train/test
split row memberships and different fitted scaler parameters, because the
row-sampling step of line 88 draws an unseeded random order. Here the two
runs differ only in that draw. -/
theorem c3_determinism_counterexample :
    (0 < twoRowArgs.sample ∧ twoRowArgs.sample ≤ 1) ∧
    (train_model twoRowArgs twoRowEnvId).xTrain ≠
      (train_model twoRowArgs twoRowEnvSwap).xTrain ∧
    (train_model twoRowArgs twoRowEnvId).scaler ≠
      (train_model twoRowArgs twoRowEnvSwap).scaler := by
  decide

/-- C3 (amended): two runs of `train_model` with identical inputs, seed and
descriptor produce identical train/test split memberships and identical
fitted scaler parameters *provided the unseeded sampling step draws the
same row order in both runs*; the partitions and scaler depend on nothing
else of the environment (lines 88–103 precede every collaborator-dependent
stage). -/
theorem c3_determinism_amended (a : Args) (e e2 : Env)
    (hp : e.samplePerm = e2.samplePerm) :
    (train_model a e).xTrain = (train_model a e2).xTrain ∧
    (train_model a e).xTest = (train_model a e2).xTest ∧
    (train_model a e).yTrain = (train_model a e2).yTrain ∧
    (train_model a e).yTest = (train_model a e2).yTest ∧
    (train_model a e).scaler = (train_model a e2).scaler := by
  obtain ⟨h1, h2, h3, h4, h5⟩ := train_model_split_char a e
  obtain ⟨g1, g2, g3, g4, g5⟩ := train_model_split_char a e2
  rw [h1, h2, h3, h4, h5, g1, g2, g3, g4, g5, hp]
  exact ⟨rfl, rfl, rfl, rfl, rfl⟩

/-- Witness for amended C3: two concrete runs with the same sample draw but
different fit outcomes still record the same fitted scaler. -/
theorem c3_determinism_witness :
    (train_model twoRowArgs twoRowEnvId).scaler =
      (train_model twoRowArgs twoRowEnvIdNoFit).scaler :=
  (c3_determinism_amended twoRowArgs twoRowEnvId twoRowEnvIdNoFit rfl).2.2.2.2

/-- C5 is false as stated: with sample fraction 1.0 the frame passed on to
label encoding and feature extraction need not have the same rows in the
same order as the numeric-filtered frame — `df.sample(frac=1.0)` (line 88)
randomizes the row order. Here a run whose sampler draws the swapped order
records a sampled frame different from the numeric-filtered frame. -/
theorem c5_sample_noop_counterexample :
    twoRowArgs.sample = 1 ∧
    (train_model twoRowArgs twoRowEnvSwap).dfSampled ≠
      some (twoRowArgs.dataset.select_dtypes numerics) := by
  decide

/-- C5 (amended): with fraction 1.0 the sampling step keeps every row
exactly once — each column of the sampled frame is a permutation of the
corresponding original column, with names and dtypes unchanged (and the
index is reset); only the row *order* is randomized. -/
theorem c5_sample_noop_amended (df : DataFrame) (perm : List Nat)
    (hperm : perm.Perm (List.range df.nrows))
    (hlen : ∀ c ∈ df.cols, c.values.length = df.nrows) :
    List.Forall₂ (fun c2 c1 : Column =>
        c2.name = c1.name ∧ c2.dtype = c1.dtype ∧ c2.values.Perm c1.values)
      (df.sample perm 1).cols df.cols := by
  rw [sample_one]
  have hplen : perm.length = df.nrows := by
    simpa using hperm.length_eq
  have htake : perm.take df.nrows = perm := by
    rw [← hplen]
    exact List.take_length perm
  rw [htake, List.forall₂_map_left_iff, List.forall₂_same]
  intro c hc
  refine ⟨rfl, rfl, ?_⟩
  have h1 : (perm.map (fun i => c.values.getD i Value.missing)).Perm
      ((List.range df.nrows).map (fun i => c.values.getD i Value.missing)) :=
    hperm.map _
  have h2 : (List.range df.nrows).map (fun i => c.values.getD i Value.missing) = c.values := by
    rw [← hlen c hc]
    exact getD_range_map c.values Value.missing
  rw [h2] at h1
  exact h1

/-- Witness for amended C5: sampling the two-row frame with the swapped draw
yields columns that are permutations of the originals. -/
theorem c5_sample_noop_witness :
    List.Forall₂ (fun c2 c1 : Column =>
        c2.name = c1.name ∧ c2.dtype = c1.dtype ∧ c2.values.Perm c1.values)
      (twoRowFrame.sample [1, 0] 1).cols twoRowFrame.cols :=
  c5_sample_noop_amended twoRowFrame [1, 0] (by decide) (by decide)

set_option maxRecDepth 8000 in
/-- C4 is false as stated: the report loop of lines 124–163 has no exception
handling, so a failure while generating one report kind aborts the whole
pipeline and prevents every remaining report kind. In a concrete completing
scenario whose ROCAUC generator fails, the run ends with `EvaluationFailed`
and neither the classification report, nor the confusion matrix, nor the
feature-importance report is generated, and no artifact of the final log
stage is written. -/
theorem c4_report_isolation_counterexample :
    (train_model scnBArgs rocFailEnv).result =
      Outcome.err (Err.evaluationFailed ReportKind.rocauc) ∧
    Event.genReport ReportKind.classificationReport ∉ (train_model scnBArgs rocFailEnv).trace ∧
    Event.genReport ReportKind.confusionMatrix ∉ (train_model scnBArgs rocFailEnv).trace ∧
    Event.genReport ReportKind.featureImportances ∉ (train_model scnBArgs rocFailEnv).trace ∧
    Event.logModel ∉ (train_model scnBArgs rocFailEnv).trace := by
  decide

/-- C4 (amended): a failure raised while generating one report kind aborts
the Evaluator — it does not complete, and no report kind later in the fixed
order (ROCAUC, ClassificationReport, ConfusionMatrix, FeatureImportances)
is generated. -/
theorem c4_report_isolation_amended (env : Env) (k k2 : ReportKind)
    (hf : env.reportOk k = false) (hlt : k.idx < k2.idx) :
    exceptIsOk (evalPhase env) = false ∧
    Event.genReport k2 ∉ evalTrace (evalPhase env) := by
  cases h1 : env.reportOk ReportKind.rocauc <;>
    cases h2 : env.reportOk ReportKind.classificationReport <;>
      cases h3 : env.reportOk ReportKind.confusionMatrix <;>
        cases h4 : env.reportOk ReportKind.featureImportances <;>
          cases k <;> cases k2 <;>
            simp_all [evalPhase, evalReports, reportEvents, evalTrace, exceptIsOk,
              ReportKind.idx]

/-- Witness for amended C4: with the concrete environment whose ROCAUC
generator fails, the Evaluator aborts and the confusion matrix is never
generated. -/
theorem c4_report_isolation_witness :
    exceptIsOk (evalPhase rocFailEnv) = false ∧
    Event.genReport ReportKind.confusionMatrix ∉ evalTrace (evalPhase rocFailEnv) :=
  c4_report_isolation_amended rocFailEnv ReportKind.rocauc ReportKind.confusionMatrix rfl
    (by decide)

set_option maxRecDepth 8000 in
/-- C6 is false as stated: the drawing surface is *not* reset between every
pair of consecutive report kinds. In a concrete completing run, the
FeatureImportances report (lines 166–174) is generated while the surface
still carries the ConfusionMatrix drawing — the clears of lines 128–130
happen at the top of the three-kind loop only, and the clear of lines
184–186 comes after FeatureImportances is generated and logged. -/
theorem c6_surface_reset_counterexample :
    dirtyAtGen (train_model scnBArgs scnEnv).trace false ReportKind.featureImportances =
      some true := by
  decide

/-- C6 (amended): in every completing evaluation, each of ROCAUC,
ClassificationReport and ConfusionMatrix is generated on a freshly cleared
surface (whatever the surface state was when the Evaluator started), but
FeatureImportances is generated on the surface left dirty by the
ConfusionMatrix report. -/
theorem c6_surface_reset_amended (env : Env) (b : Bool)
    (hall : ∀ k, env.reportOk k = true) :
    dirtyAtGen (evalTrace (evalPhase env)) b ReportKind.rocauc = some false ∧
    dirtyAtGen (evalTrace (evalPhase env)) b ReportKind.classificationReport = some false ∧
    dirtyAtGen (evalTrace (evalPhase env)) b ReportKind.confusionMatrix = some false ∧
    dirtyAtGen (evalTrace (evalPhase env)) b ReportKind.featureImportances = some true := by
  have h1 := hall ReportKind.rocauc
  have h2 := hall ReportKind.classificationReport
  have h3 := hall ReportKind.confusionMatrix
  have h4 := hall ReportKind.featureImportances
  simp [evalPhase, evalReports, reportEvents, evalTrace, h1, h2, h3, h4, dirtyAtGen]

/-- Witness for amended C6 at the concrete cooperative environment, with the
surface initially dirty. -/
theorem c6_surface_reset_witness :
    dirtyAtGen (evalTrace (evalPhase scnEnv)) true ReportKind.rocauc = some false ∧
    dirtyAtGen (evalTrace (evalPhase scnEnv)) true ReportKind.classificationReport = some false ∧
    dirtyAtGen (evalTrace (evalPhase scnEnv)) true ReportKind.confusionMatrix = some false ∧
    dirtyAtGen (evalTrace (evalPhase scnEnv)) true ReportKind.featureImportances = some true :=
  c6_surface_reset_amended scnEnv true (fun _ => rfl)

set_option maxRecDepth 8000 in
/-- C1 is false as stated: in scenario A the label column has dtype string,
so the numeric restriction of lines 78–79 silently drops it before label
encoding; `df[label_column]` at line 90 then fails (`KeyError`, the spec's
label-column-absent `InvalidDataset` condition) and the pipeline aborts
with no artifact written — it does not complete. -/
theorem c1_scenarioA_counterexample :
    (train_model scnAArgs scnEnv).result = Outcome.err (Err.keyError "label") ∧
    (train_model scnAArgs scnEnv).trace.countP Event.isArtifactWrite = 0 := by
  decide

set_option maxRecDepth 8000 in
/-- C1 (amended): scenario A with a *numeric* (int64) label column — the
only label dtype the pipeline's own numeric restriction lets through —
completes and produces exactly one model artifact, one scaler artifact, one
encoder artifact and one held-out dataset artifact; the held-out artifact
has 25 rows and columns `[f1, f2, label]` (the full retained header of line
86, label column included, per line 228), not `[f1, f2]`. -/
theorem c1_scenarioA_amended :
    (train_model scnBArgs scnEnv).result = Outcome.ok ∧
    (train_model scnBArgs scnEnv).trace.count Event.logModel = 1 ∧
    (train_model scnBArgs scnEnv).trace.count Event.logScaler = 1 ∧
    (train_model scnBArgs scnEnv).trace.count Event.logEncoder = 1 ∧
    (train_model scnBArgs scnEnv).trace.countP
      (fun e => match e with | Event.logDataset _ _ => true | _ => false) = 1 ∧
    (train_model scnBArgs scnEnv).trace.count
      (Event.logDataset 25 ["f1", "f2", "label"]) = 1 ∧
    ((train_model scnBArgs scnEnv).heldOut.getD ([], [])).1 = ["f1", "f2", "label"] ∧
    ((train_model scnBArgs scnEnv).heldOut.getD ([], [])).2.length = 25 := by
  decide
